import Mathlib

/-!
# Verification of the congress_alpha UI core

Shallow embedding of the live-data synchronization layer and the
trade-signal lifecycle controller of the `congress_alpha` repository:

* `usePolling` (src/unnamed/part_005) — the polling engine;
* `SignalsClient` (src/ui/components/SignalsClient.tsx) — per-signal
  actions, bulk delete, filter/page navigation;
* `request` and `signalsApi.list` (src/ui/lib/api.ts) — the request
  gateway and query construction;
* `fetchTrades` (src/unnamed/part_000) and `fetchDashboardData`
  (src/ui/components/DashboardClient.tsx) — page-level aggregate fetches.

Each definition is translated directly from the TypeScript source it
names; the semantics of concurrent `async` handlers is rendered as an
explicit interleaving of start/completion events applied to the React
state, in program order of the `setState` calls.
-/

namespace CongressAlpha

/-! ## Polling engine (`usePolling`, src/unnamed/part_005)

React state of the hook: `data`, `error`, `isLoading`, `isRefreshing`,
`lastUpdated`.  `fetchData(isInitial)` sets one of the two flags, awaits
`fetchFn()`, and on resumption either applies the success updates
(`setData`, `setError(null)`, `setLastUpdated(new Date())`) or the
failure update (`setError(err)`); the `finally` block always clears both
flags.  Errors are carried as their message strings; timestamps as
naturals. -/

structure PollState (T : Type) where
  data : Option T
  error : Option String
  isLoading : Bool
  isRefreshing : Bool
  lastUpdated : Option Nat
  deriving Repr

/-- Initial hook state: `useState<T|null>(null)`, `useState(null)`,
`useState(true)`, `useState(false)`, `useState<Date|null>(null)`. -/
def PollState.init (T : Type) : PollState T :=
  { data := none, error := none, isLoading := true,
    isRefreshing := false, lastUpdated := none }

/-- The synchronous prefix of `fetchData(isInitial)` (part_005 lines
24–28): `isInitial ? setIsLoading(true) : setIsRefreshing(true)`. -/
def fetchStart {T : Type} (s : PollState T) (isInitial : Bool) : PollState T :=
  if isInitial then { s with isLoading := true } else { s with isRefreshing := true }

/-- The resumption of `fetchData` after `await fetchFn()` settles
(part_005 lines 30–39).  Success: `setData(result); setError(null);
setLastUpdated(new Date())`.  Failure: `setError(err)`.  Either way the
`finally` block runs `setIsLoading(false); setIsRefreshing(false)`. -/
def fetchComplete {T : Type} (s : PollState T) (result : Except String T)
    (now : Nat) : PollState T :=
  match result with
  | .ok v =>
      { s with data := some v, error := none, lastUpdated := some now,
               isLoading := false, isRefreshing := false }
  | .error e =>
      { s with error := some e, isLoading := false, isRefreshing := false }

/-! ### Interleaving semantics of overlapping fetches

`fetchData` suspends only at `await fetchFn()`, so a run of the engine is
a sequence of atomic steps: each fetch invocation contributes a `start`
step (its synchronous prefix) and, when its promise settles, a `complete`
step (its resumption).  The engine state additionally counts how many
fetch invocations have been issued, which numbers the invocations in
issue order — the sequence numbering the specification asks for.  The
source applies every completion's `setData`/`setError` unconditionally:
`complete` carries the sequence number of the invocation that is
completing, and the step function does not consult it. -/

structure EngineState (T : Type) where
  poll : PollState T
  issued : Nat
  deriving Repr

inductive PollEvent (T : Type) where
  | start (isInitial : Bool)
  | complete (seq : Nat) (result : Except String T) (now : Nat)
  deriving Repr

/-- One atomic step of the engine, as the source executes it: a `start`
issues the next fetch (sequence number = current `issued` count) and runs
the synchronous prefix; a `complete` applies the resumption of
invocation `seq` with no staleness check whatsoever. -/
def pollStep {T : Type} (s : EngineState T) : PollEvent T → EngineState T
  | .start isInitial =>
      { poll := fetchStart s.poll isInitial, issued := s.issued + 1 }
  | .complete _seq result now =>
      { s with poll := fetchComplete s.poll result now }

def pollRun {T : Type} (events : List (PollEvent T)) : EngineState T :=
  events.foldl pollStep { poll := PollState.init T, issued := 0 }

/-- The result of the completed fetch with the highest sequence number in
a schedule (the value the specification says must be displayed). -/
def highestCompletedResult {T : Type} (events : List (PollEvent T)) :
    Option (Nat × Except String T) :=
  events.foldl
    (fun acc e =>
      match e with
      | .start _ => acc
      | .complete seq result _ =>
          match acc with
          | none => some (seq, result)
          | some (bestSeq, bestRes) =>
              if seq ≥ bestSeq then some (seq, result) else some (bestSeq, bestRes))
    none

/-! ## Signal rows and the action layer (`SignalsClient`,
src/ui/components/SignalsClient.tsx)

Only the fields the client logic reads are modelled: `id : number | null`
(`Option Int`), the `status` string (absent on legacy rows), and the
legacy `processed` flag.  Display-only fields (ticker, politician,
amounts, dates) are elided. -/

structure TradeSignal where
  id : Option Int
  status : Option String
  processed : Bool
  deriving Repr, DecidableEq

/-- JavaScript truthiness of a `number | null` value: `null`, `0` are
falsy, everything else truthy (NaN does not arise for signal ids). -/
def idTruthy : Option Int → Bool
  | none => false
  | some n => n != 0

/-- Lines 239–258: the Buy/Reject buttons are rendered only inside
`signal.status === "pending_confirmation" && signal.id && (...)`. -/
def confirmRejectRendered (sig : TradeSignal) : Bool :=
  sig.status == some "pending_confirmation" && idTruthy sig.id

/-- Lines 259–269: the delete button is rendered inside
`signal.id && (...)` regardless of status. -/
def deleteRendered (sig : TradeSignal) : Bool :=
  idTruthy sig.id

inductive ActionKind where
  | confirm
  | reject
  | delete
  deriving Repr, DecidableEq

/-- Whether the button for action `k` on row `sig` is rendered and
enabled given the current `actionLoading` slot: every action button
carries `disabled={actionLoading === signal.id}`. -/
def actionAllowed (actionLoading : Option Int) (sig : TradeSignal) :
    ActionKind → Bool
  | .confirm => confirmRejectRendered sig && !(actionLoading == sig.id)
  | .reject => confirmRejectRendered sig && !(actionLoading == sig.id)
  | .delete => deleteRendered sig && !(actionLoading == sig.id)

/-- The backend mutation calls the three single-entity handlers issue
(`signalsApi.confirm/reject/delete`). -/
inductive ApiCall where
  | confirmCall (id : Int)
  | rejectCall (id : Int)
  | deleteCall (id : Int)
  deriving Repr, DecidableEq

def apiCallOf : ActionKind → Int → ApiCall
  | .confirm, n => .confirmCall n
  | .reject, n => .rejectCall n
  | .delete, n => .deleteCall n

/-- Client-side state relevant to the action layer.  `signals` is the
poll snapshot (`data` of `usePolling`) as the view displays it — the
handlers have no write access to it.  `actionLoading` is the single
`useState<number | null>(null)` slot (line 15).  `inFlight` records the
handler invocations that have started and not yet settled (the awaited
backend calls), newest first.  `refreshCount` counts the `refresh()`
requests issued to the polling engine. -/
structure ClientState (T : Type) where
  signals : Option T
  actionLoading : Option Int
  inFlight : List (Int × ActionKind)
  refreshCount : Nat
  deriving Repr

def ClientState.init (T : Type) (signals0 : Option T) : ClientState T :=
  { signals := signals0, actionLoading := none, inFlight := [], refreshCount := 0 }

/-- A click on the button for action `k` on row `sig`.  The handler runs
only if the button is rendered and enabled; `handleDelete` additionally
shows a `confirm(...)` dialog and returns early when it is dismissed
(line 68), before `setActionLoading` and before any network call.  When
the handler proceeds, its synchronous prefix runs `setActionLoading(id)`
and issues the backend call (the second component). -/
def clickStep {T : Type} (st : ClientState T) (sig : TradeSignal)
    (k : ActionKind) (dialogAccepted : Bool) :
    ClientState T × Option ApiCall :=
  if actionAllowed st.actionLoading sig k
      && (!(k == ActionKind.delete) || dialogAccepted) then
    match sig.id with
    | some n =>
        ({ st with actionLoading := some n, inFlight := (n, k) :: st.inFlight },
         some (apiCallOf k n))
    | none => (st, none)
  else (st, none)

/-- Settlement of an in-flight action on `id`: on success the `try`
block's `refresh()` runs; on failure the `catch` block only logs; the
`finally` block runs `setActionLoading(null)` unconditionally (lines
43–79, identical shape for confirm, reject and delete).  The snapshot is
untouched on every path. -/
def settleStep {T : Type} (st : ClientState T) (id : Int) (k : ActionKind)
    (success : Bool) : ClientState T :=
  { st with
    inFlight := st.inFlight.erase (id, k),
    refreshCount := st.refreshCount + (if success then 1 else 0),
    actionLoading := none }

inductive ClientEvent where
  | click (sig : TradeSignal) (k : ActionKind) (dialogAccepted : Bool)
  | settle (id : Int) (k : ActionKind) (success : Bool)
  deriving Repr

def clientStep {T : Type} (st : ClientState T) : ClientEvent → ClientState T
  | .click sig k d => (clickStep st sig k d).1
  | .settle id k success => settleStep st id k success

def clientRun {T : Type} (signals0 : Option T) (events : List ClientEvent) :
    ClientState T :=
  events.foldl clientStep (ClientState.init T signals0)

/-! ## Bulk delete (`handleDeleteAll`, SignalsClient.tsx lines 81–95)

The handler's observable behaviour as the ordered list of effects it
performs.  `confirmed` is the outcome of the `confirm(message)` dialog;
`outcome` is the settlement of `signalsApi.deleteAll(processedOnly)`,
carrying the backend's `deleted_count` on success. -/

inductive DeleteAllEffect where
  | apiDeleteAll (processedOnly : Bool)
  | alertDeleted (count : Nat)
  | refreshReq
  | logError (msg : String)
  deriving Repr, DecidableEq

def handleDeleteAll (processedOnly : Bool) (confirmed : Bool)
    (outcome : Except String Nat) : List DeleteAllEffect :=
  if !confirmed then []
  else
    match outcome with
    | .ok n => [.apiDeleteAll processedOnly, .alertDeleted n, .refreshReq]
    | .error e => [.apiDeleteAll processedOnly, .logError e]

/-! ## Filter and page navigation (SignalsClient.tsx lines 17–19, 37–41,
278–308)

The URL search parameters are the view state store.  `parseInt` is
modelled on decimal-digit strings, which are the only page values the
client itself writes; sign/whitespace/radix handling of JavaScript's
`parseInt` is not exercised by the claims. -/

structure SearchParams where
  page : Option String
  processed : Option String
  deriving Repr, DecidableEq

def jsParseInt (s : String) : Option Nat :=
  let ds := s.data.takeWhile (·.isDigit)
  if ds.isEmpty then none
  else some (ds.foldl (fun acc c => acc * 10 + (c.toNat - 48)) 0)

/-- Line 17: `searchParams.get("page") ? parseInt(searchParams.get("page")!) : 1`
(an absent or empty parameter is falsy and yields 1; `none` models NaN). -/
def pageFromParams (sp : SearchParams) : Option Nat :=
  match sp.page with
  | none => some 1
  | some s => if s = "" then some 1 else jsParseInt s

/-- Lines 18–19: `processedParam === "true" ? true : processedParam === "false"
? false : undefined`. -/
def processedFromParams (sp : SearchParams) : Option Bool :=
  match sp.processed with
  | some s => if s = "true" then some true
              else if s = "false" then some false else none
  | none => none

/-- `setFilter` (lines 37–41): builds a fresh `URLSearchParams`, sets
only `processed` (when defined), and navigates — the page parameter is
never carried over. -/
def setFilterParams (value : Option String) : SearchParams :=
  { page := none, processed := value }

/-- The Previous/Next buttons (lines 281–306): set `page` to the
neighbouring page number and carry `processed` over via
`String(processed)` exactly when it is defined. -/
def gotoPageParams (newPage : Nat) (processed : Option Bool) : SearchParams :=
  { page := some (toString newPage),
    processed := processed.map (fun b => if b then "true" else "false") }

/-! ## Request gateway (`request`, src/ui/lib/api.ts lines 14–31)

What reaches `request`'s control flow after `await fetch(url, ...)`:
either the promise rejected (network failure, no response object), or a
response arrived with `ok`, `status` and a body.  For a non-`ok`
response the body is consumed by `response.json().catch(...)`:
`BodyJson.malformed` is a body that fails JSON parsing, `BodyJson.parsed
d` a JSON body whose `detail` field is `d` (absent when `none`).  For an
`ok` response the claims do not exercise the success-body parse, so the
outcome carries the decoded value directly. -/

inductive BodyJson where
  | malformed
  | parsed (detail : Option String)
  deriving Repr, DecidableEq

inductive FetchOutcome (T : Type) where
  | networkFailure
  | success (status : Nat) (value : T)
  | failure (status : Nat) (errBody : BodyJson)
  deriving Repr

inductive RequestError where
  | apiError (status : Nat) (message : String)
  | networkError
  deriving Repr, DecidableEq

/-- Line 26: `const error = await response.json().catch(() => ({ detail:
"Unknown error" }))` — the `detail` field of the object `request` goes on
to read. -/
def errorDetail : BodyJson → Option String
  | .malformed => some "Unknown error"
  | .parsed d => d

/-- Line 27: `error.detail || "Request failed"` — an absent or empty
(falsy) `detail` falls through to `"Request failed"`. -/
def errMessage (b : BodyJson) : String :=
  match errorDetail b with
  | some s => if s = "" then "Request failed" else s
  | none => "Request failed"

/-- `request` (lines 14–31): a rejected `fetch` propagates the network
error untouched (no `catch` around it, so it is not an `ApiError` and
carries no HTTP status); a non-`ok` response throws
`ApiError(response.status, error.detail || "Request failed")`; an `ok`
response resolves to its decoded body. -/
def request {T : Type} : FetchOutcome T → Except RequestError T
  | .networkFailure => .error .networkError
  | .success _ v => .ok v
  | .failure status b => .error (.apiError status (errMessage b))

/-! ## Signals list query (`signalsApi.list`, api.ts lines 35–43) -/

structure SignalsListParams where
  page : Option Nat
  page_size : Option Nat
  processed : Option Bool
  deriving Repr, DecidableEq

/-- The key/value pairs `signalsApi.list` puts into `URLSearchParams`,
in `set` order: `if (params?.page) …`, `if (params?.page_size) …` are
truthiness checks (absent and 0 both skip), while
`if (params?.processed !== undefined) …` includes `processed` even when
it is `false`. -/
def signalsListQuery (p : SignalsListParams) : List (String × String) :=
  (match p.page with
   | some n => if n != 0 then [("page", toString n)] else []
   | none => []) ++
  (match p.page_size with
   | some n => if n != 0 then [("page_size", toString n)] else []
   | none => []) ++
  (match p.processed with
   | some b => [("processed", if b then "true" else "false")]
   | none => [])

/-! ## Page-level aggregate fetches (C9)

`fetchTrades` (src/unnamed/part_000 lines 6–19) awaits
`Promise.all([tradesApi.list(...), tradesApi.getStats()])` inside a
single `try`; `Promise.all` rejects as soon as either input rejects, so
one `catch` replaces BOTH results with their fallbacks.
`fetchDashboardData` (src/ui/components/DashboardClient.tsx lines 16–25)
instead attaches an individual `.catch` to each of its five calls before
`Promise.all`, so every sub-call degrades on its own. -/

structure Paginated (T : Type) where
  items : List T
  total : Nat
  page : Nat
  page_size : Nat
  pages : Nat
  deriving Repr, DecidableEq

/-- The fallback literal of part_000 line 15:
`{items: [], total: 0, page: 1, page_size: 20, pages: 1}`. -/
def fallbackPaginated (T : Type) : Paginated T :=
  { items := [], total := 0, page := 1, page_size := 20, pages := 1 }

def fetchTrades {Tr St : Type} (listRes : Except String (Paginated Tr))
    (statsRes : Except String St) : Paginated Tr × Option St :=
  match listRes, statsRes with
  | .ok t, .ok s => (t, some s)
  | _, _ => (fallbackPaginated Tr, none)

structure DashboardData (A B C D E : Type) where
  stats : Option A
  tradeStats : Option B
  pendingSignals : List C
  politicians : List D
  actionStatus : Option E
  deriving Repr

def fetchDashboardData {A B C D E : Type}
    (stats : Except String A) (tradeStats : Except String B)
    (pending : Except String (List C)) (politicians : Except String (List D))
    (actionStatus : Except String E) : DashboardData A B C D E :=
  { stats := match stats with | .ok v => some v | .error _ => none,
    tradeStats := match tradeStats with | .ok v => some v | .error _ => none,
    pendingSignals := match pending with | .ok v => v | .error _ => [],
    politicians := match politicians with | .ok v => v | .error _ => [],
    actionStatus := match actionStatus with | .ok v => some v | .error _ => none }

/-! ## Claim theorems -/

/-- A schedule of two overlapping fetches: the initial fetch (sequence 0)
and a refresh (sequence 1); the refresh completes first with result 2,
then the slow initial fetch completes with result 1. -/
def pollRaceSchedule : List (PollEvent Nat) :=
  [.start true, .start false,
   .complete 1 (.ok 2) 10,
   .complete 0 (.ok 1) 11]

/-- C1: the engine issues no sequence numbers and discards no completion
— after the race schedule the displayed snapshot is the STALE result
`some 1`, while the completed fetch with the highest issued sequence
number (1, of the 2 issued) returned 2.  The claimed staleness guard
does not exist in `usePolling`. -/
theorem c1_stale_completion_overwrites_newer :
    (pollRun pollRaceSchedule).issued = 2 ∧
    highestCompletedResult pollRaceSchedule = some (1, Except.ok 2) ∧
    (pollRun pollRaceSchedule).poll.data = some 1 ∧
    some (1 : Nat) ≠ some (2 : Nat) :=
  ⟨rfl, rfl, rfl, by decide⟩

/-- C2: a fetch that fails (for either an initial or a refreshing run)
leaves `data` and `lastUpdated` exactly as they were before the fetch,
sets `error` to the failure, and clears both the loading and refreshing
flags. -/
theorem c2_failed_fetch_preserves_data {T : Type} (s : PollState T)
    (isInitial : Bool) (e : String) (now : Nat) :
    (fetchComplete (fetchStart s isInitial) (Except.error e) now).data = s.data ∧
    (fetchComplete (fetchStart s isInitial) (Except.error e) now).lastUpdated
      = s.lastUpdated ∧
    (fetchComplete (fetchStart s isInitial) (Except.error e) now).error = some e ∧
    (fetchComplete (fetchStart s isInitial) (Except.error e) now).isLoading = false ∧
    (fetchComplete (fetchStart s isInitial) (Except.error e) now).isRefreshing
      = false := by
  cases isInitial <;> simp [fetchStart, fetchComplete]

/-- A pending-confirmation row with id 1 and an ordinary row with id 2. -/
def sigPC1 : TradeSignal :=
  { id := some 1, status := some "pending_confirmation", processed := false }

def sigRow2 : TradeSignal :=
  { id := some 2, status := some "pending", processed := false }

/-- Confirm id 1, then delete id 2 (overwriting the single
`actionLoading` slot, which re-enables id 1's buttons), then delete id 1;
finally the id-2 action settles, nulling the slot. -/
def lockRaceSchedule : List ClientEvent :=
  [.click sigPC1 .confirm true,
   .click sigRow2 .delete true,
   .click sigPC1 .delete true,
   .settle 2 .delete true]

/-- C3: the per-id lock does not exist — `actionLoading` is one scalar
slot.  After the race schedule a confirm AND a delete on id 1 are both
in flight concurrently, and the settlement of id 2's action has cleared
the slot even though id 1's two actions are still in flight. -/
theorem c3_single_slot_lock_races :
    ((1, ActionKind.confirm) ∈ (clientRun (some (0 : Nat)) lockRaceSchedule).inFlight) ∧
    ((1, ActionKind.delete) ∈ (clientRun (some (0 : Nat)) lockRaceSchedule).inFlight) ∧
    (clientRun (some (0 : Nat)) lockRaceSchedule).actionLoading = none := by
  decide

/-- A confirm on id 1 whose backend call fails. -/
def failedConfirmSchedule : List ClientEvent :=
  [.click sigPC1 .confirm true, .settle 1 .confirm false]

/-- C4 counterexample: after a confirm on id 1 settles with failure, no
scheduler refresh has been requested (`refresh()` sits inside the `try`
block, after the `await`), refuting "a scheduler refresh is requested
whether it succeeds or fails"; the lock slot is released as claimed. -/
theorem c4_counterexample_no_refresh_on_failure :
    (clientRun (some (0 : Nat)) failedConfirmSchedule).refreshCount = 0 ∧
    (clientRun (some (0 : Nat)) failedConfirmSchedule).actionLoading = none := by
  decide

/-- C4 (amended): when a single-entity action settles, the lock slot is
released unconditionally and the displayed snapshot is never mutated by
the action (neither at click nor at settlement), but a scheduler refresh
is requested only when the backend call succeeds. -/
theorem c4_settle_releases_lock_refresh_on_success {T : Type}
    (st : ClientState T) (id : Int) (k : ActionKind) (success : Bool)
    (sig : TradeSignal) (d : Bool) :
    (settleStep st id k success).actionLoading = none ∧
    (settleStep st id k success).signals = st.signals ∧
    (settleStep st id k success).refreshCount
      = st.refreshCount + (if success then 1 else 0) ∧
    ((clickStep st sig k d).1).signals = st.signals := by
  refine ⟨rfl, rfl, rfl, ?_⟩
  unfold clickStep
  split
  · cases sig.id <;> rfl
  · rfl

/-- C5: on a signal whose status is not `pending_confirmation`, a click
on confirm or reject changes nothing and issues no network call — the
buttons are only rendered inside the
`signal.status === "pending_confirmation"` guard. -/
theorem c5_confirm_reject_need_pending_confirmation {T : Type}
    (st : ClientState T) (sig : TradeSignal) (d : Bool)
    (h : sig.status ≠ some "pending_confirmation") :
    clickStep st sig ActionKind.confirm d = (st, none) ∧
    clickStep st sig ActionKind.reject d = (st, none) := by
  have hb : confirmRejectRendered sig = false := by
    unfold confirmRejectRendered
    cases hs : sig.status == some "pending_confirmation"
    · simp
    · exact absurd (by simpa using hs) h
  constructor <;> simp [clickStep, actionAllowed, hb]

def sigExec : TradeSignal :=
  { id := some 3, status := some "executed", processed := true }

theorem c5_witness :
    (sigExec.status ≠ some "pending_confirmation") ∧
    clickStep (ClientState.init Nat (some 5)) sigExec ActionKind.confirm true
      = (ClientState.init Nat (some 5), none) :=
  ⟨by decide,
   (c5_confirm_reject_need_pending_confirmation
      (ClientState.init Nat (some 5)) sigExec true (by decide)).1⟩

/-- C6: without the confirmation dialog, `handleDeleteAll` performs no
effect at all (in particular no network call); when confirmed and the
backend call succeeds with `deleted_count = n`, it issues the call,
reports `n`, and then requests a scheduler refresh, in that order. -/
theorem c6_delete_all_gate_and_report (processedOnly : Bool)
    (outcome : Except String Nat) (n : Nat) :
    handleDeleteAll processedOnly false outcome = [] ∧
    DeleteAllEffect.apiDeleteAll processedOnly ∉
      handleDeleteAll processedOnly false outcome ∧
    handleDeleteAll processedOnly true (Except.ok n)
      = [DeleteAllEffect.apiDeleteAll processedOnly,
         DeleteAllEffect.alertDeleted n,
         DeleteAllEffect.refreshReq] := by
  refine ⟨rfl, ?_, rfl⟩
  simp [handleDeleteAll]

/-- C7: on a non-success status with an unparsable body the gateway
throws `ApiError(status, "Unknown error")`; with a parsed non-empty
`detail` it throws `ApiError(status, detail)`; a network failure yields
the distinct `networkError`, which is not an `apiError` and carries no
HTTP status. -/
theorem c7_gateway_error_taxonomy (T : Type) (status : Nat) (d : String) :
    (request (T := T) (FetchOutcome.failure status BodyJson.malformed)
       = Except.error (RequestError.apiError status "Unknown error")) ∧
    (d ≠ "" →
      request (T := T) (FetchOutcome.failure status (BodyJson.parsed (some d)))
        = Except.error (RequestError.apiError status d)) ∧
    (request (T := T) FetchOutcome.networkFailure
       = Except.error RequestError.networkError) ∧
    (∀ st msg, RequestError.networkError ≠ RequestError.apiError st msg) := by
  refine ⟨rfl, fun hd => ?_, rfl, fun st msg h => by cases h⟩
  simp [request, errMessage, errorDetail, hd]

theorem c7_witness :
    ("boom" ≠ "") ∧
    request (T := Nat) (FetchOutcome.failure 404 (BodyJson.parsed (some "boom")))
      = Except.error (RequestError.apiError 404 "boom") :=
  ⟨by decide, (c7_gateway_error_taxonomy Nat 404 "boom").2.1 (by decide)⟩

/-- C8: `setFilter` always navigates to a URL without a page parameter,
which parses back as page 1, for any filter value; the Previous/Next
navigation preserves the current filter exactly; concretely, on page 3
of the "pending" filter, switching to "processed" makes the next fetch
use page 1 with the new filter. -/
theorem c8_filter_resets_page_and_page_keeps_filter :
    (∀ v : Option String, pageFromParams (setFilterParams v) = some 1) ∧
    (∀ (n : Nat) (p : Option Bool), processedFromParams (gotoPageParams n p) = p) ∧
    (pageFromParams { page := some "3", processed := some "false" } = some 3) ∧
    (processedFromParams { page := some "3", processed := some "false" }
       = some false) ∧
    (pageFromParams (setFilterParams (some "true")) = some 1) ∧
    (processedFromParams (setFilterParams (some "true")) = some true) := by
  refine ⟨fun v => rfl, fun n p => ?_, by decide, by decide, rfl, rfl⟩
  cases p with
  | none => rfl
  | some b => cases b <;> rfl

/-- C9 counterexample: in the trades-page aggregate, a failing list call
also blanks a SUCCESSFUL stats call to `none` — the sub-calls do not
degrade independently (the single `catch` wraps the whole
`Promise.all`). -/
theorem c9_counterexample_stats_blanked :
    (fetchTrades (Except.error "boom" : Except String (Paginated Nat))
        (Except.ok (42 : Nat))).2 = none ∧
    (none : Option Nat) ≠ some 42 := by
  decide

/-- C9 (amended): a throwing list endpoint never propagates — the trades
page gets exactly the documented fallback `{items := [], total := 0,
page := 1, page_size := 20, pages := 1}` and null stats — and in the
dashboard aggregate each sub-call degrades independently: a failing
`getPending` yields the empty-list fallback while every other component
is unaffected by the `pendingSignals` input; in the trades-page
aggregate, however, the two sub-calls fall back jointly. -/
theorem c9_aggregate_fallbacks {Tr St A B C D E : Type} (e : String)
    (statsRes : Except String St)
    (a : Except String A) (b : Except String B)
    (p p' : Except String (List C)) (q : Except String (List D))
    (r : Except String E) :
    (fetchTrades (Except.error e : Except String (Paginated Tr)) statsRes
       = (fallbackPaginated Tr, none)) ∧
    ((fetchDashboardData a b (Except.error e : Except String (List C)) q r).pendingSignals = []) ∧
    ((fetchDashboardData a b p' q r).stats = (fetchDashboardData a b p q r).stats ∧
     (fetchDashboardData a b p' q r).tradeStats
       = (fetchDashboardData a b p q r).tradeStats ∧
     (fetchDashboardData a b p' q r).politicians
       = (fetchDashboardData a b p q r).politicians ∧
     (fetchDashboardData a b p' q r).actionStatus
       = (fetchDashboardData a b p q r).actionStatus) := by
  refine ⟨?_, rfl, rfl, rfl, rfl, rfl⟩
  cases statsRes <;> rfl

/-- C10: the signals list query always carries `processed` when it is
defined — including `processed=false` — but omits `page` and `page_size`
when they are absent or 0 (JavaScript truthiness), so page 0 produces a
request with no page parameter. -/
theorem c10_list_query_truthiness :
    (∀ pg psz : Option Nat,
        ("processed", "false") ∈ signalsListQuery ⟨pg, psz, some false⟩) ∧
    (∀ pg psz : Option Nat,
        ("processed", "true") ∈ signalsListQuery ⟨pg, psz, some true⟩) ∧
    (∀ (psz : Option Nat) (pr : Option Bool) (v : String),
        ("page", v) ∉ signalsListQuery ⟨none, psz, pr⟩ ∧
        ("page", v) ∉ signalsListQuery ⟨some 0, psz, pr⟩) ∧
    (∀ (pg : Option Nat) (pr : Option Bool) (v : String),
        ("page_size", v) ∉ signalsListQuery ⟨pg, none, pr⟩ ∧
        ("page_size", v) ∉ signalsListQuery ⟨pg, some 0, pr⟩) ∧
    (signalsListQuery ⟨some 1, some 20, some false⟩
       = [("page", "1"), ("page_size", "20"), ("processed", "false")]) := by
  refine ⟨?_, ?_, ?_, ?_, by decide⟩
  · intro pg psz
    cases pg <;> cases psz <;> simp [signalsListQuery]
  · intro pg psz
    cases pg <;> cases psz <;> simp [signalsListQuery]
  · intro psz pr v
    constructor <;> (cases psz <;> cases pr <;> simp [signalsListQuery])
  · intro pg pr v
    constructor <;> (cases pg <;> cases pr <;> simp [signalsListQuery])

end CongressAlpha
